import Mathlib

/-!
# Hale: camera, viewer modes and GLSL program management

A shallow embedding of `Hale.h` and `Program.cpp`.

* The enumerations and the `Camera` class declaration come from `Hale.h`.
  The bodies of the `Camera` methods live in `Camera.cpp`, which is not part
  of the sources at hand; they are modelled from the specification and marked
  as such.
* `Program.cpp` is embedded function by function.  OpenGL is an external
  collaborator: every GL command the code issues is appended to a trace, and
  the values GL hands back come from a `Driver`, a deterministic oracle that
  may depend on the trace so far.  C++ exceptions are values of `Exn`;
  a function that can throw returns an `Except Exn _` next to the state it
  leaves behind, because state written before a `throw` stays written.
-/

set_option autoImplicit false

namespace Hale

/-! ## glm vectors -/

/-- The type `glm::vec3` over a scalar type `K`. -/
structure vec3 (K : Type) where
  x : K
  y : K
  z : K
deriving DecidableEq, Repr

/-- The type `glm::vec4` over a scalar type `K`. -/
structure vec4 (K : Type) where
  x : K
  y : K
  z : K
  w : K
deriving DecidableEq, Repr

/-- The type `glm::mat4`: four columns. -/
structure mat4 (K : Type) where
  c0 : vec4 K
  c1 : vec4 K
  c2 : vec4 K
  c3 : vec4 K
deriving DecidableEq, Repr

namespace glm

variable {K : Type}

/-- Componentwise difference `a - b` of two `glm::vec3`. -/
def sub [Sub K] (a b : vec3 K) : vec3 K :=
  ⟨a.x - b.x, a.y - b.y, a.z - b.z⟩

/-- The function `glm::dot` on `vec3`. -/
def dot [Add K] [Mul K] (a b : vec3 K) : K :=
  a.x * b.x + a.y * b.y + a.z * b.z

/-- The function `glm::cross`. -/
def cross [Sub K] [Mul K] (a b : vec3 K) : vec3 K :=
  ⟨a.y * b.z - b.y * a.z, a.z * b.x - b.z * a.x, a.x * b.y - b.x * a.y⟩

/-- Division of every component of a `vec3` by a scalar. -/
def divScalar [Div K] (a : vec3 K) (s : K) : vec3 K :=
  ⟨a.x / s, a.y / s, a.z / s⟩

/-- The function `glm::normalize`: the vector divided by its length, the length being the
square root (supplied as `sqrt`) of `dot v v`. -/
def normalize [Add K] [Mul K] [Div K] (sqrt : K → K) (v : vec3 K) : vec3 K :=
  divScalar v (sqrt (dot v v))

end glm

/-! ## The viewer-mode enumeration (`Hale.h`, lines 73-102) -/

/-- The enumerators of the anonymous `viewerMode*` enum of `Hale.h`. -/
inductive ViewerMode
  | viewerModeUnknown
  | viewerModeNone
  | viewerModeFov
  | viewerModeDepthScale
  | viewerModeDepthTranslate
  | viewerModeRotateUV
  | viewerModeRotateU
  | viewerModeRotateV
  | viewerModeRotateN
  | viewerModeVertigo
  | viewerModeTranslateUV
  | viewerModeTranslateU
  | viewerModeTranslateV
  | viewerModeDolly
deriving DecidableEq, Repr

/-- The enumerators in the order the enum lists them. -/
def ViewerMode.enumerators : List ViewerMode :=
  [.viewerModeUnknown, .viewerModeNone, .viewerModeFov, .viewerModeDepthScale,
   .viewerModeDepthTranslate, .viewerModeRotateUV, .viewerModeRotateU, .viewerModeRotateV,
   .viewerModeRotateN, .viewerModeVertigo, .viewerModeTranslateUV, .viewerModeTranslateU,
   .viewerModeTranslateV, .viewerModeDolly]

/-- The integer a C enumerator stands for: no enumerator has an explicit value, so the first
is 0 and each one is its predecessor plus one, that is, its position in the list. -/
def ViewerMode.code (m : ViewerMode) : Nat :=
  ViewerMode.enumerators.indexOf m

/-- The thirteen interaction modes the specification lists for `activeMode`, in its order. -/
def ViewerMode.thirteen : List ViewerMode :=
  [.viewerModeNone, .viewerModeFov, .viewerModeDepthScale, .viewerModeDepthTranslate,
   .viewerModeRotateUV, .viewerModeRotateU, .viewerModeRotateV, .viewerModeRotateN,
   .viewerModeVertigo, .viewerModeTranslateUV, .viewerModeTranslateU, .viewerModeTranslateV,
   .viewerModeDolly]

/-! ## The camera (`Hale.h`, lines 141-210) -/

/-- The private state of `class Camera`, field by field as `Hale.h` declares it
(lines 196-206): the verbosity, the essential parameters, and the derived parameters
(the view-space basis and the two matrices).  The class declares no other data member. -/
structure Camera (K : Type) where
  _verbose : Int
  _from : vec3 K
  _at : vec3 K
  _up : vec3 K
  _fov : K
  _aspect : K
  _clipNear : K
  _clipFar : K
  _orthographic : Bool
  _uu : vec3 K
  _vv : vec3 K
  _nn : vec3 K
  _view : mat4 K
  _project : mat4 K
deriving DecidableEq

/-- The numeric routines and constants the camera takes from outside this repository: the
square root behind `glm::normalize`, the constant π that bounds the field of view, the look-at
construction of the view matrix, and the construction of the projection matrix from the
look-from and look-at points, `fov`, `aspect`, `clipNear`, `clipFar` and the orthographic
switch. -/
structure CameraMath (K : Type) where
  sqrt : K → K
  pi : K
  lookAt : vec3 K → vec3 K → vec3 K → mat4 K
  projection : vec3 K → vec3 K → K → K → K → K → Bool → mat4 K

namespace Camera

variable {K : Type}

set_option linter.dupNamespace false in
/-- Modelled from the spec: the constructor `Camera::Camera` (declared in `Hale.h`, lines
150-157; body in the missing `Camera.cpp`) stores the initial parameter set.  The spec does not
say what the cache holds before the first read; it starts as the state derived from these
parameters.  The argument `at_` is the C++ `at`. -/
def Camera [Add K] [Sub K] [Mul K] [Div K] (M : CameraMath K) (fr at_ up : vec3 K)
    (fov aspect clipNear clipFar : K) (orthographic : Bool) : Hale.Camera K :=
  let nn := glm.normalize M.sqrt (glm.sub fr at_)
  let uu := glm.normalize M.sqrt (glm.cross up nn)
  { _verbose := 0, _from := fr, _at := at_, _up := up, _fov := fov, _aspect := aspect,
    _clipNear := clipNear, _clipFar := clipFar, _orthographic := orthographic,
    _uu := uu, _vv := glm.cross nn uu, _nn := nn,
    _view := M.lookAt fr at_ up,
    _project := M.projection fr at_ fov aspect clipNear clipFar orthographic }

/-- The constructor called with no argument: every parameter takes the default value written
in the declaration (`Hale.h`, lines 150-157).  A decimal literal denotes the rational it
writes. -/
def Camera_default [Field K] (M : CameraMath K) : Hale.Camera K :=
  Camera M ⟨3.0, 4.0, 5.0⟩ ⟨0.0, 0.0, 0.0⟩ ⟨0.0, 0.0, 1.0⟩ 0.8 1.3333333 (-2) 2 false

/-! Getters and setters.  C++ overloads one name for both (`from()` and `from(v)`); here the
getter is `get_…` and the setter `set_…`.  The bodies are in the missing `Camera.cpp`. -/

/-- Modelled from the spec: getter `Camera::from()` of the missing `Camera.cpp`. -/
def get_from (c : Hale.Camera K) : vec3 K := c._from
/-- Modelled from the spec: getter `Camera::at()` of the missing `Camera.cpp`. -/
def get_at (c : Hale.Camera K) : vec3 K := c._at
/-- Modelled from the spec: getter `Camera::up()` of the missing `Camera.cpp`. -/
def get_up (c : Hale.Camera K) : vec3 K := c._up
/-- Modelled from the spec: getter `Camera::fov()` of the missing `Camera.cpp`. -/
def get_fov (c : Hale.Camera K) : K := c._fov
/-- Modelled from the spec: getter `Camera::aspect()` of the missing `Camera.cpp`. -/
def get_aspect (c : Hale.Camera K) : K := c._aspect
/-- Modelled from the spec: getter `Camera::clipNear()` of the missing `Camera.cpp`. -/
def get_clipNear (c : Hale.Camera K) : K := c._clipNear
/-- Modelled from the spec: getter `Camera::clipFar()` of the missing `Camera.cpp`. -/
def get_clipFar (c : Hale.Camera K) : K := c._clipFar
/-- Modelled from the spec: getter `Camera::orthographic()` of the missing `Camera.cpp`. -/
def get_orthographic (c : Hale.Camera K) : Bool := c._orthographic

/-! Setters.  Two sentences of the spec govern them.  Section 4.1: "each setter stores the raw
value; it does not eagerly recompute the basis or matrices".  Section 7: a value that makes
`from == at`, `fov` invalid or `clipNear ≥ clipFar` at setter time is a configuration error,
"surfaced immediately to the caller as a rejected operation; the Camera's prior valid state is
retained (no partial mutation)".  A setter therefore yields either the camera with the one
value stored or a `ConfigError`, in which case the camera is the one the caller had. -/

end Camera

/-! ## OpenGL as seen from `Program.cpp` -/

/-- A `float` as `Program.cpp` handles it: the program never computes with the value, it only
forwards it to GL, so the bit pattern is all there is. -/
structure GLfloat where
  bits : Nat
deriving DecidableEq, Repr

/-- The OpenGL constant `GL_FALSE`. -/
def GL_FALSE : Int := 0
/-- The OpenGL constant `GL_FLOAT`. -/
def GL_FLOAT : Int := 0x1406
/-- The OpenGL constant `GL_FLOAT_VEC3`. -/
def GL_FLOAT_VEC3 : Int := 0x8B51
/-- The OpenGL constant `GL_FLOAT_VEC4`. -/
def GL_FLOAT_VEC4 : Int := 0x8B52
/-- The OpenGL constant `GL_FLOAT_MAT4`. -/
def GL_FLOAT_MAT4 : Int := 0x8B5C
/-- The OpenGL constant `GL_FRAGMENT_SHADER`. -/
def GL_FRAGMENT_SHADER : Int := 0x8B30
/-- The OpenGL constant `GL_VERTEX_SHADER`. -/
def GL_VERTEX_SHADER : Int := 0x8B31
/-- The OpenGL constant `GL_COMPILE_STATUS`. -/
def GL_COMPILE_STATUS : Int := 0x8B81
/-- The OpenGL constant `GL_LINK_STATUS`. -/
def GL_LINK_STATUS : Int := 0x8B82
/-- The OpenGL constant `GL_INFO_LOG_LENGTH`. -/
def GL_INFO_LOG_LENGTH : Int := 0x8B84
/-- The OpenGL constant `GL_ACTIVE_UNIFORMS`. -/
def GL_ACTIVE_UNIFORMS : Int := 0x8B86

/-- A GL command issued by `Program.cpp`, with the arguments the code passes. -/
inductive GLCall
  | glCreateShader (shtype : Int)
  | glShaderSource (shader : Int) (src : String)
  | glCompileShader (shader : Int)
  | glGetShaderiv (shader pname : Int)
  | glGetShaderInfoLog (shader bufSize : Int)
  | glDeleteShader (shader : Int)
  | glCreateProgram
  | glAttachShader (program shader : Int)
  | glBindAttribLocation (program index : Int) (name : String)
  | glLinkProgram (program : Int)
  | glGetProgramiv (program pname : Int)
  | glGetProgramInfoLog (program bufSize : Int)
  | glGetActiveUniform (program index : Int)
  | glGetUniformLocation (program : Int) (name : String)
  | glUseProgram (program : Int)
  | glUniform1f (location : Int) (v : GLfloat)
  | glUniform3fv (location count : Int) (v : vec3 GLfloat)
  | glUniform4fv (location count : Int) (v : vec4 GLfloat)
  | glUniformMatrix4fv (location count transpose : Int) (v : mat4 GLfloat)
deriving DecidableEq, Repr

/-- A C++ exception: `std::runtime_error` with its message, or the `std::out_of_range` that
`std::map::at` throws for a missing key. -/
inductive Exn
  | runtime_error (what : String)
  | out_of_range
deriving DecidableEq, Repr

/-- Whether an exception is a `std::runtime_error`. -/
def Exn.isRuntimeError : Exn → Bool
  | .runtime_error _ => true
  | .out_of_range => false

/-- The struct `glEnumItem` of `Hale.h` (lines 130-137). -/
structure glEnumItem where
  enumVal : Int
  enumStr : String
  glslStr : String
deriving DecidableEq, Repr

/-- Everything `Program.cpp` uses and does not define.

* The enumerators of `preprogram` and the `vertAttrIdx*` constants are declared in
  `privateHale.h`, which is missing; they are parameters.
* `glEnumDesc` and `glErrorCheck` are declared in `Hale.h` and defined in the missing
  `utils.cpp`.  `glEnumDesc[t]` is a total lookup (`operator[]` of `std::map` yields a
  default item for an absent key).  `glErrorCheck trace whence context` says whether the check
  throws, and what, given the GL commands issued so far.
* The remaining fields are the values the GL driver hands back; each may depend on the
  commands issued before the query.  Object ids are kept as the integers the driver hands
  out: the conversions between `GLuint` and `GLint` leave them as they are. -/
structure Env where
  preprogramUnknown : Int
  preprogramAmbDiff : Int
  preprogramAmbDiff2Side : Int
  preprogramAmbDiffSolid : Int
  preprogramAmbDiff2SideSolid : Int
  preprogramLast : Int
  vertAttrIdxXYZW : Int
  vertAttrIdxRGBA : Int
  vertAttrIdxNorm : Int
  glEnumDesc : Int → glEnumItem
  glErrorCheck : List GLCall → String → String → Option Exn
  glCreateShader : List GLCall → Int → Int
  glGetShaderiv : List GLCall → Int → Int → Int
  glGetShaderInfoLog : List GLCall → Int → Int → String
  glCreateProgram : List GLCall → Int
  glGetProgramiv : List GLCall → Int → Int → Int
  glGetProgramInfoLog : List GLCall → Int → Int → String
  glGetActiveUniform : List GLCall → Int → Int → String × Int
  glGetUniformLocation : List GLCall → Int → String → Int

/-- The four `case` labels of the `switch` in `ProgramLib` are pairwise different (C++ rejects
a `switch` with two equal labels). -/
def Env.casesDistinct (E : Env) : Prop :=
  E.preprogramAmbDiff ≠ E.preprogramAmbDiff2Side ∧
  E.preprogramAmbDiff ≠ E.preprogramAmbDiffSolid ∧
  E.preprogramAmbDiff ≠ E.preprogramAmbDiff2SideSolid ∧
  E.preprogramAmbDiff2Side ≠ E.preprogramAmbDiffSolid ∧
  E.preprogramAmbDiff2Side ≠ E.preprogramAmbDiff2SideSolid ∧
  E.preprogramAmbDiffSolid ≠ E.preprogramAmbDiff2SideSolid

instance (E : Env) : Decidable E.casesDistinct := by
  unfold Env.casesDistinct; infer_instance

/-! ### `std::map` with string keys -/

/-- A `std::map<std::string, α>` as an association list with at most one entry per key. -/
abbrev StrMap (α : Type) := List (String × α)

/-- The lookup `m.find(k)`: `none` stands for `m.end()`. -/
def StrMap.find {α : Type} (m : StrMap α) (k : String) : Option α :=
  List.lookup k m

/-- The assignment `m[k] = v`. -/
def StrMap.set {α : Type} (m : StrMap α) (k : String) (v : α) : StrMap α :=
  (k, v) :: m.filter (fun e => e.1 != k)

/-! ## `Program.cpp` -/

/-- The macro `VERSION`. -/
def VERSION : String := "#version 150 core\n "

/-- The shader source `AmbDiff_vert`. -/
def AmbDiff_vert : String :=
  VERSION ++
  "uniform mat4 projectMat;\n " ++
  "uniform mat4 viewMat;\n " ++
  "uniform mat4 modelMat;\n " ++
  "in vec4 positionVA;\n " ++
  "in vec3 normalVA;\n " ++
  "in vec4 colorVA;\n " ++
  "out vec3 norm_frag;\n " ++
  "out vec4 color_frag;\n " ++
  "mat4 modIT = transpose(inverse(modelMat));\n " ++
  "void main(void) \x7b\n " ++
  "  gl_Position = projectMat * viewMat * modelMat * positionVA;\n " ++
  "  norm_frag = mat3(modIT) * normalVA;\n " ++
  "  color_frag = colorVA;\n " ++
  "\x7d\n "

/-- The shader source `AmbDiffSolid_vert`. -/
def AmbDiffSolid_vert : String :=
  VERSION ++
  "uniform mat4 projectMat;\n " ++
  "uniform mat4 viewMat;\n " ++
  "uniform mat4 modelMat;\n " ++
  "uniform vec4 colorSolid;\n " ++
  "in vec4 positionVA;\n " ++
  "in vec3 normalVA;\n " ++
  "out vec3 norm_frag;\n " ++
  "out vec4 color_frag;\n " ++
  "mat4 modIT = transpose(inverse(modelMat));\n " ++
  "void main(void) \x7b\n " ++
  "  gl_Position = projectMat * viewMat * modelMat * positionVA;\n " ++
  "  norm_frag = mat3(modIT) * normalVA;\n " ++
  "  color_frag = colorSolid;\n " ++
  "\x7d\n "

/-- The shader source `AmbDiff_frag`. -/
def AmbDiff_frag : String :=
  VERSION ++
  "uniform vec3 lightDir;\n " ++
  "uniform float phongKa;\n " ++
  "uniform float phongKd;\n " ++
  "in vec4 color_frag;\n " ++
  "in vec3 norm_frag;\n " ++
  "out vec4 fcol;\n " ++
  "void main(void) \x7b\n " ++
  "  float ldot = max(0, dot(lightDir, normalize(norm_frag)));\n " ++
  "  fcol = color_frag*(phongKa + phongKd*ldot);\n " ++
  "  fcol.a = color_frag.a;\n " ++
  "\x7d\n"

/-- The shader source `AmbDiff2Side_frag`. -/
def AmbDiff2Side_frag : String :=
  VERSION ++
  "uniform vec3 lightDir;\n " ++
  "uniform float phongKa;\n " ++
  "uniform float phongKd;\n " ++
  "in vec4 color_frag;\n " ++
  "in vec3 norm_frag;\n " ++
  "out vec4 fcol;\n " ++
  "void main(void) \x7b\n " ++
  "  float ldot = max(dot(lightDir, -normalize(norm_frag)), dot(lightDir, normalize(norm_frag)));\n " ++
  "  fcol = color_frag*(phongKa + phongKd*ldot);\n " ++
  "  fcol.a = color_frag.a;\n " ++
  "\x7d\n"

/-- The helper `strdupe`: a fresh copy of the string. -/
def strdupe (str : String) : String := str

/-- The data members of `class Program` as `Program.cpp` uses them. -/
structure Program where
  uniformLocation : StrMap Int
  uniformType : StrMap glEnumItem
  _vertId : Int
  _fragId : Int
  _progId : Int
  _vertCode : String
  _fragCode : String
deriving DecidableEq, Repr

/-- The function `shaderNew` (lines 125-155), on the trace of GL commands: the value returned or
the exception thrown, and the trace afterwards. -/
def shaderNew (E : Env) (shtype : Int) (shaderSrc : String) (gl : List GLCall) :
    Except Exn Int × List GLCall :=
  let me := "Hale::shaderNew"
  let shaderId := E.glCreateShader gl shtype
  let gl1 := gl ++ [GLCall.glCreateShader shtype]
  match E.glErrorCheck gl1 me "glCreateShader" with
  | some e => (.error e, gl1)
  | none =>
  let gl2 := gl1 ++ [GLCall.glShaderSource shaderId shaderSrc]
  match E.glErrorCheck gl2 me "glShaderSource" with
  | some e => (.error e, gl2)
  | none =>
  let gl3 := gl2 ++ [GLCall.glCompileShader shaderId]
  match E.glErrorCheck gl3 me "glCompileShader" with
  | some e => (.error e, gl3)
  | none =>
  let status := E.glGetShaderiv gl3 shaderId GL_COMPILE_STATUS
  let gl4 := gl3 ++ [GLCall.glGetShaderiv shaderId GL_COMPILE_STATUS]
  match E.glErrorCheck gl4 me "glGetShaderiv" with
  | some e => (.error e, gl4)
  | none =>
  if GL_FALSE = status then
    let logSize := E.glGetShaderiv gl4 shaderId GL_INFO_LOG_LENGTH
    let gl5 := gl4 ++ [GLCall.glGetShaderiv shaderId GL_INFO_LOG_LENGTH]
    if logSize ≠ 0 then
      let logMsg := E.glGetShaderInfoLog gl5 shaderId logSize
      let gl6 := gl5 ++ [GLCall.glGetShaderInfoLog shaderId logSize]
      let gl7 := gl6 ++ [GLCall.glDeleteShader shaderId]
      (.error (Exn.runtime_error (me ++ ": compiler error:\n" ++ logMsg)), gl7)
    else
      (.ok 0, gl5)
  else
    (.ok shaderId, gl4)

set_option linter.dupNamespace false in
/-- The constructor `Program::Program(preprogram prog)` (lines 157-179): the object built, or
the exception thrown.  The first test picks the vertex source or throws, the second picks the
fragment source; the maps start empty. -/
def Program.Program (E : Env) (prog : Int) : Except Exn Hale.Program :=
  let me := "Hale::Program::Program(prog)"
  let vert : Except Exn String :=
    if E.preprogramAmbDiff = prog ∨ E.preprogramAmbDiff2Side = prog then
      .ok (strdupe AmbDiff_vert)
    else if E.preprogramAmbDiffSolid = prog ∨ E.preprogramAmbDiff2SideSolid = prog then
      .ok (strdupe AmbDiffSolid_vert)
    else
      .error (Exn.runtime_error (me ++ ": prog " ++ toString prog ++ " not recognized"))
  match vert with
  | .error e => .error e
  | .ok _vertCode =>
    let _fragCode :=
      if E.preprogramAmbDiff2Side = prog ∨ E.preprogramAmbDiff2SideSolid = prog then
        strdupe AmbDiff2Side_frag
      else
        strdupe AmbDiff_frag
    .ok { uniformLocation := [], uniformType := [], _vertId := 0, _fragId := 0, _progId := 0,
          _vertCode := _vertCode, _fragCode := _fragCode }

/-- The outcome `r` of a construction is an object with the vertex source `vert`, the fragment
source `frag` and the three ids at 0. -/
def Program.builtWith (r : Except Exn Hale.Program) (vert frag : String) : Prop :=
  ∃ p, r = .ok p ∧ p._vertCode = vert ∧ p._fragCode = frag ∧
    p._vertId = 0 ∧ p._fragId = 0 ∧ p._progId = 0

/-- The method `Program::compile` (lines 201-224): outcome, the object afterwards and the trace
afterwards.  A member assigned before a `throw` keeps its new value. -/
def Program.compile (E : Env) (p : Hale.Program) (gl : List GLCall) :
    Except Exn Unit × Hale.Program × List GLCall :=
  let me := "Hale::Program::compile"
  match shaderNew E GL_VERTEX_SHADER p._vertCode gl with
  | (.error e, gl1) => (.error e, p, gl1)
  | (.ok vertId, gl1) =>
  let p1 := { p with _vertId := vertId }
  match shaderNew E GL_FRAGMENT_SHADER p1._fragCode gl1 with
  | (.error e, gl2) => (.error e, p1, gl2)
  | (.ok fragId, gl2) =>
  let p2 := { p1 with _fragId := fragId }
  let p3 := { p2 with _progId := E.glCreateProgram gl2 }
  let gl3 := gl2 ++ [GLCall.glCreateProgram]
  match E.glErrorCheck gl3 me "glCreateProgram" with
  | some e => (.error e, p3, gl3)
  | none =>
  let gl4 := gl3 ++ [GLCall.glAttachShader p3._progId p3._vertId]
  match E.glErrorCheck gl4 me ("glAttachShader(vertId " ++ toString p3._vertId ++ ")") with
  | some e => (.error e, p3, gl4)
  | none =>
  let gl5 := gl4 ++ [GLCall.glAttachShader p3._progId p3._fragId]
  match E.glErrorCheck gl5 me ("glAttachShader(fragId " ++ toString p3._fragId ++ ")") with
  | some e => (.error e, p3, gl5)
  | none => (.ok (), p3, gl5)

/-- The method `Program::bindAttribute` (lines 226-237). -/
def Program.bindAttribute (E : Env) (p : Hale.Program) (idx : Int) (name : String)
    (gl : List GLCall) : Except Exn Unit × List GLCall :=
  let me := "Hale::Program::bindAttribute"
  let gl1 := gl ++ [GLCall.glBindAttribLocation p._progId idx name]
  match E.glErrorCheck gl1 me ("glBindAttribLocation(" ++ name ++ ")") with
  | some e => (.error e, gl1)
  | none => (.ok (), gl1)

/-- The loop of `Program::link` (lines 267-282): `n` iterations are left and `uniI` is the
loop index. -/
def Program.linkUniforms (E : Env) : Nat → Int → Hale.Program → List GLCall →
    Except Exn Unit × Hale.Program × List GLCall
  | 0, _, p, gl => (.ok (), p, gl)
  | n + 1, uniI, p, gl =>
    let me := "Hale::Program::use"
    let uniName := (E.glGetActiveUniform gl p._progId uniI).1
    let uniType := (E.glGetActiveUniform gl p._progId uniI).2
    let gl1 := gl ++ [GLCall.glGetActiveUniform p._progId uniI]
    match E.glErrorCheck gl1 me ("glGetActiveUniform(" ++ toString uniI ++ ")") with
    | some e => (.error e, p, gl1)
    | none =>
    let p1 := { p with uniformType := p.uniformType.set uniName (E.glEnumDesc uniType) }
    let uniLoc := E.glGetUniformLocation gl1 p1._progId uniName
    let gl2 := gl1 ++ [GLCall.glGetUniformLocation p1._progId uniName]
    match E.glErrorCheck gl2 me ("glGetUniformLocation(" ++ uniName ++ ")") with
    | some e => (.error e, p1, gl2)
    | none =>
    if -1 = uniLoc then
      (.error (Exn.runtime_error (me ++ ": \"" ++ uniName ++ "\" is not a known uniform name")),
        p1, gl2)
    else
      Program.linkUniforms E n (uniI + 1)
        { p1 with uniformLocation := p1.uniformLocation.set uniName uniLoc } gl2

/-- The second half of `Program::link` (lines 257-284): the uniform introspection, which clears
both maps and fills them again. -/
def Program.linkIntrospect (E : Env) (p : Hale.Program) (gl : List GLCall) :
    Except Exn Unit × Hale.Program × List GLCall :=
  let me := "Hale::Program::use"
  let p1 := { p with uniformType := [] }
  let p2 := { p1 with uniformLocation := [] }
  let uniN := E.glGetProgramiv gl p2._progId GL_ACTIVE_UNIFORMS
  let gl1 := gl ++ [GLCall.glGetProgramiv p2._progId GL_ACTIVE_UNIFORMS]
  match E.glErrorCheck gl1 me "glGetProgramiv(GL_ACTIVE_UNIFORMS)" with
  | some e => (.error e, p2, gl1)
  | none => Program.linkUniforms E uniN.toNat 0 p2 gl1

/-- The method `Program::link` (lines 239-285).  The string `me` is the one the source gives
it. -/
def Program.link (E : Env) (p : Hale.Program) (gl : List GLCall) :
    Except Exn Unit × Hale.Program × List GLCall :=
  let me := "Hale::Program::use"
  let gl1 := gl ++ [GLCall.glLinkProgram p._progId]
  let status := E.glGetProgramiv gl1 p._progId GL_LINK_STATUS
  let gl2 := gl1 ++ [GLCall.glGetProgramiv p._progId GL_LINK_STATUS]
  if GL_FALSE = status then
    let logSize := E.glGetProgramiv gl2 p._progId GL_INFO_LOG_LENGTH
    let gl3 := gl2 ++ [GLCall.glGetProgramiv p._progId GL_INFO_LOG_LENGTH]
    if logSize ≠ 0 then
      let logMsg := E.glGetProgramInfoLog gl3 p._progId logSize
      let gl4 := gl3 ++ [GLCall.glGetProgramInfoLog p._progId logSize]
      (.error (Exn.runtime_error (me ++ ": linking error: " ++ logMsg)), p, gl4)
    else
      (.error (Exn.runtime_error "compilation failed"), p, gl3)
  else
    Program.linkIntrospect E p gl2

/-- The link status GL reports to `Program::link`: the answer to the `GL_LINK_STATUS` query
that follows `glLinkProgram`. -/
def Program.linkStatus (E : Env) (p : Hale.Program) (gl : List GLCall) : Int :=
  E.glGetProgramiv (gl ++ [GLCall.glLinkProgram p._progId]) p._progId GL_LINK_STATUS

/-- The length of the info log GL reports to `Program::link` after a failed link. -/
def Program.linkLogSize (E : Env) (p : Hale.Program) (gl : List GLCall) : Int :=
  E.glGetProgramiv
    (gl ++ [GLCall.glLinkProgram p._progId] ++ [GLCall.glGetProgramiv p._progId GL_LINK_STATUS])
    p._progId GL_INFO_LOG_LENGTH

/-- The info log GL hands to `Program::link` after a failed link. -/
def Program.linkLog (E : Env) (p : Hale.Program) (gl : List GLCall) : String :=
  E.glGetProgramInfoLog
    (gl ++ [GLCall.glLinkProgram p._progId] ++ [GLCall.glGetProgramiv p._progId GL_LINK_STATUS]
      ++ [GLCall.glGetProgramiv p._progId GL_INFO_LOG_LENGTH])
    p._progId (Program.linkLogSize E p gl)

/-- The process-wide state of `Program.cpp` together with the GL trace: the objects made by
`new` (the object at address `a > 0` is `heap[a - 1]`; address 0 is the null pointer), the
array `_program` of cached programs and the pointer `_programCurrent`. -/
structure World where
  gl : List GLCall
  heap : List Hale.Program
  _program : Int → Nat
  _programCurrent : Nat

/-- The method `Program::use` (lines 287-302) called on the object `p` at address `this`. -/
def Program.use (E : Env) (this : Nat) (p : Hale.Program) (w : World) : Except Exn Unit × World :=
  let me := "Hale::Program::use"
  if w._programCurrent = this then
    (.ok (), w)
  else
    let gl1 := w.gl ++ [GLCall.glUseProgram p._progId]
    match E.glErrorCheck gl1 me ("glUseProgram(" ++ toString p._progId ++ ")") with
    | some e => (.error e, { w with gl := gl1 })
    | none => (.ok (), { w with gl := gl1, _programCurrent := this })

/-- The common text of the four `Program::uniform` overloads (lines 312-388).  They differ in
four places only: the GL type tested (`glType`), the type name that ends the message
(`got`), the upload command (`upload`, given the location) and the name of that command in
the error-check context (`cmd`). -/
def Program.uniformWith (E : Env) (glType : Int) (got : String) (upload : Int → GLCall)
    (cmd : String) (p : Hale.Program) (name : String) (gl : List GLCall) :
    Except Exn Unit × List GLCall :=
  let me := "Program::uniform"
  match p.uniformType.find name with
  | none => (.error (Exn.runtime_error (me ++ ": \"" ++ name ++ "\" is not an active uniform")), gl)
  | some ii =>
  if glType ≠ ii.enumVal then
    (.error (Exn.runtime_error
      (me ++ ": \"" ++ name ++ "\" is a " ++ ii.glslStr ++ " but got a " ++ got)), gl)
  else
  match p.uniformLocation.find name with
  | none => (.error Exn.out_of_range, gl)
  | some loc =>
  let gl1 := gl ++ [upload loc]
  match E.glErrorCheck gl1 me (cmd ++ "(" ++ name ++ ")") with
  | some e => (.error e, gl1)
  | none => (.ok (), gl1)

/-- The overload `Program::uniform(std::string, float)` (lines 312-325). -/
def Program.uniform_float (E : Env) (p : Hale.Program) (name : String) (vv : GLfloat)
    (gl : List GLCall) : Except Exn Unit × List GLCall :=
  Program.uniformWith E GL_FLOAT "float" (fun loc => GLCall.glUniform1f loc vv)
    "glUniform1f" p name gl

/-- The overload `Program::uniform(std::string, glm::vec3)` (lines 333-346). -/
def Program.uniform_vec3 (E : Env) (p : Hale.Program) (name : String) (vv : vec3 GLfloat)
    (gl : List GLCall) : Except Exn Unit × List GLCall :=
  Program.uniformWith E GL_FLOAT_VEC3 "vec3" (fun loc => GLCall.glUniform3fv loc 1 vv)
    "glUniform3fv" p name gl

/-- The overload `Program::uniform(std::string, glm::vec4)` (lines 354-367). -/
def Program.uniform_vec4 (E : Env) (p : Hale.Program) (name : String) (vv : vec4 GLfloat)
    (gl : List GLCall) : Except Exn Unit × List GLCall :=
  Program.uniformWith E GL_FLOAT_VEC4 "vec4" (fun loc => GLCall.glUniform4fv loc 1 vv)
    "glUniform4fv" p name gl

/-- The overload `Program::uniform(std::string, glm::mat4)` (lines 375-388). -/
def Program.uniform_mat4 (E : Env) (p : Hale.Program) (name : String) (vv : mat4 GLfloat)
    (gl : List GLCall) : Except Exn Unit × List GLCall :=
  Program.uniformWith E GL_FLOAT_MAT4 "mat4" (fun loc => GLCall.glUniformMatrix4fv loc 1 0 vv)
    "glUniformMatrix4fv" p name gl

/-- Every name with a recorded type has a recorded location. -/
def Program.typedHaveLocation (p : Hale.Program) : Prop :=
  ∀ name, (p.uniformType.find name).isSome → (p.uniformLocation.find name).isSome

/-- What one `Program::uniform` overload does, `run` being the overload applied to the object
`p`, the name and a value on the trace `gl`, `glType` the GL type it accepts, `upload loc` the
command that uploads the value to `loc`, and `cmd` the name of that command:

* the name has no recorded type: `std::runtime_error`, no GL command;
* the recorded type is not `glType`: `std::runtime_error`, no GL command;
* the type matches and a location is recorded: exactly the upload to that location is issued,
  and nothing is thrown when the error check that follows reports no GL error;
* the type matches and no location is recorded: `std::out_of_range`, no GL command. -/
def Program.uniformContract (E : Env) (p : Hale.Program) (name : String) (gl : List GLCall)
    (glType : Int) (upload : Int → GLCall) (cmd : String)
    (run : Except Exn Unit × List GLCall) : Prop :=
  (p.uniformType.find name = none →
    (∃ what, run.1 = .error (Exn.runtime_error what)) ∧ run.2 = gl) ∧
  (∀ ii, p.uniformType.find name = some ii → ii.enumVal ≠ glType →
    (∃ what, run.1 = .error (Exn.runtime_error what)) ∧ run.2 = gl) ∧
  (∀ ii loc, p.uniformType.find name = some ii → ii.enumVal = glType →
    p.uniformLocation.find name = some loc →
    run.2 = gl ++ [upload loc] ∧
    (E.glErrorCheck (gl ++ [upload loc]) "Program::uniform" (cmd ++ "(" ++ name ++ ")") = none →
      run.1 = .ok ())) ∧
  (∀ ii, p.uniformType.find name = some ii → ii.enumVal = glType →
    p.uniformLocation.find name = none → run = (.error Exn.out_of_range, gl))

/-- The attribute bindings `ProgramLib` makes in its `switch` (lines 408-424), one
`bindAttribute` after the other; the first that throws ends the sequence. -/
def bindAttributes (E : Env) (p : Hale.Program) : List (Int × String) → List GLCall →
    Except Exn Unit × List GLCall
  | [], gl => (.ok (), gl)
  | (idx, name) :: rest, gl =>
    match Program.bindAttribute E p idx name gl with
    | (.error e, gl1) => (.error e, gl1)
    | (.ok _, gl1) => bindAttributes E p rest gl1

/-- The function `ProgramLib` (lines 392-428): the pointer returned or the exception thrown,
and the world afterwards.  An object made by `new` stays in the heap when a later step
throws. -/
def ProgramLib (E : Env) (pp : Int) (w : World) : Except Exn Nat × World :=
  let me := "Hale::ProgramLib"
  if ¬ (E.preprogramUnknown < pp ∧ pp < E.preprogramLast) then
    (.error (Exn.runtime_error (me ++ ": prog " ++ toString pp ++ " not valid")), w)
  else if w._program pp ≠ 0 then
    (.ok (w._program pp), w)
  else
    match Program.Program E pp with
    | .error e => (.error e, w)
    | .ok obj =>
    let prog := w.heap.length + 1
    match Program.compile E obj w.gl with
    | (.error e, obj1, gl1) => (.error e, { w with gl := gl1, heap := w.heap ++ [obj1] })
    | (.ok _, obj1, gl1) =>
    let binds : Except Exn Unit × List GLCall :=
      if pp = E.preprogramAmbDiff ∨ pp = E.preprogramAmbDiff2Side then
        bindAttributes E obj1
          [(E.vertAttrIdxXYZW, "positionVA"), (E.vertAttrIdxRGBA, "colorVA"),
           (E.vertAttrIdxNorm, "normalVA")] gl1
      else if pp = E.preprogramAmbDiffSolid ∨ pp = E.preprogramAmbDiff2SideSolid then
        bindAttributes E obj1
          [(E.vertAttrIdxXYZW, "positionVA"), (E.vertAttrIdxNorm, "normalVA")] gl1
      else
        (.error (Exn.runtime_error (me ++ ": sorry, prog " ++ toString pp ++ " not implemented")),
          gl1)
    match binds with
    | (.error e, gl2) => (.error e, { w with gl := gl2, heap := w.heap ++ [obj1] })
    | (.ok _, gl2) =>
    match Program.link E obj1 gl2 with
    | (.error e, obj2, gl3) => (.error e, { w with gl := gl3, heap := w.heap ++ [obj2] })
    | (.ok _, obj2, gl3) =>
      (.ok prog, { w with gl := gl3, heap := w.heap ++ [obj2],
                          _program := Function.update w._program pp prog })

/-! ## Sample inputs for evaluation -/

/-- A camera-math instance over the rationals for evaluating the camera model: the rational
square root (exact on squares), π to twenty decimals, and matrices that record the parameters
they are built from. -/
def CameraMath.sample : CameraMath ℚ where
  sqrt := Rat.sqrt
  pi := 3.14159265358979323846
  lookAt := fun f a u => ⟨⟨f.x, f.y, f.z, 0⟩, ⟨a.x, a.y, a.z, 0⟩, ⟨u.x, u.y, u.z, 0⟩, ⟨0, 0, 0, 1⟩⟩
  projection := fun f a fov aspect near far orth =>
    ⟨⟨f.x, f.y, f.z, fov⟩, ⟨a.x, a.y, a.z, aspect⟩, ⟨near, far, 0, 0⟩,
     ⟨0, 0, 0, if orth then 1 else 0⟩⟩

/-- The camera a default construction yields, with the sample camera math. -/
def Camera.sample : Hale.Camera ℚ := Camera.Camera_default CameraMath.sample

/-- A well-behaved environment: `preprogram` numbered 0 to 5 in the order `Program.cpp` names
its enumerators, the attribute indices of `Hale.h`, a GL that never reports an error, compiles
and links every shader, hands out the ids 1, 2, 3, ... and has the two active uniforms
`phongKa` (a float, at location 0) and `lightDir` (a vec3, at location 1). -/
def Env.sample : Env where
  preprogramUnknown := 0
  preprogramAmbDiff := 1
  preprogramAmbDiff2Side := 2
  preprogramAmbDiffSolid := 3
  preprogramAmbDiff2SideSolid := 4
  preprogramLast := 5
  vertAttrIdxXYZW := 1
  vertAttrIdxRGBA := 4
  vertAttrIdxNorm := 2
  glEnumDesc := fun t =>
    if t = GL_FLOAT then ⟨t, "GL_FLOAT", "float"⟩
    else if t = GL_FLOAT_VEC3 then ⟨t, "GL_FLOAT_VEC3", "vec3"⟩
    else ⟨0, "", ""⟩
  glErrorCheck := fun _ _ _ => none
  glCreateShader := fun gl _ => gl.length + 1
  glGetShaderiv := fun _ _ pname => if pname = GL_COMPILE_STATUS then 1 else 0
  glGetShaderInfoLog := fun _ _ _ => ""
  glCreateProgram := fun gl => gl.length + 1
  glGetProgramiv := fun _ _ pname =>
    if pname = GL_LINK_STATUS then 1 else if pname = GL_ACTIVE_UNIFORMS then 2 else 0
  glGetProgramInfoLog := fun _ _ _ => ""
  glGetActiveUniform := fun _ _ idx =>
    if idx = 0 then ("phongKa", GL_FLOAT) else ("lightDir", GL_FLOAT_VEC3)
  glGetUniformLocation := fun _ _ name => if name = "phongKa" then 0 else 1

/-- The sample environment with a GL whose shader compilations fail and leave no info log. -/
def Env.compileFailsNoLog : Env :=
  { Env.sample with glGetShaderiv := fun _ _ _ => 0 }

/-- The sample environment with a GL whose links fail, with the info log `bad link`. -/
def Env.linkFails : Env :=
  { Env.sample with
      glGetProgramiv := fun _ _ pname => if pname = GL_INFO_LOG_LENGTH then 9 else 0
      glGetProgramInfoLog := fun _ _ _ => "bad link" }

/-- The sample environment with a GL that lists the active uniform `phongKa` and has no
location for it (as for a uniform that lives in a uniform block). -/
def Env.locationMissing : Env :=
  { Env.sample with glGetUniformLocation := fun _ _ _ => -1 }

/-- A program as the constructor leaves it for `preprogramAmbDiff`, with the program id 3. -/
def Program.sample : Hale.Program :=
  { uniformLocation := [], uniformType := [], _vertId := 1, _fragId := 2, _progId := 3,
    _vertCode := AmbDiff_vert, _fragCode := AmbDiff_frag }

/-- A world with nothing in it: no GL command issued, no object, an empty cache, no current
program. -/
def World.empty : World :=
  { gl := [], heap := [], _program := fun _ => 0, _programCurrent := 0 }

/-! ## Theorems -/

/-! ### The viewer-mode enumeration -/

/-- C4, as stated, fails: the enumeration has a fourteenth value, `viewerModeUnknown`, with the
code 0, which is none of the thirteen modes. -/
theorem viewerMode_unknown_outside_thirteen :
    ¬ (∀ m : ViewerMode, m ∈ ViewerMode.thirteen) ∧
    ViewerMode.viewerModeUnknown ∉ ViewerMode.thirteen ∧
    ViewerMode.code ViewerMode.viewerModeUnknown = 0 := by
  refine ⟨fun h => ?_, by decide, by decide⟩
  exact absurd (h ViewerMode.viewerModeUnknown) (by decide)

/-- C4, amended: every value of the viewer-mode enumeration is `viewerModeUnknown` (code 0) or
one of the thirteen modes None, Fov, DepthScale, DepthTranslate, RotateUV, RotateU, RotateV,
RotateN, Vertigo, TranslateUV, TranslateU, TranslateV, Dolly; the thirteen are pairwise
distinct and carry the codes 1 to 13 in that order. -/
theorem viewerMode_values :
    (∀ m : ViewerMode, m = ViewerMode.viewerModeUnknown ∨ m ∈ ViewerMode.thirteen) ∧
    ViewerMode.code ViewerMode.viewerModeUnknown = 0 ∧
    ViewerMode.thirteen.Nodup ∧
    ViewerMode.thirteen.length = 13 ∧
    ViewerMode.thirteen.map ViewerMode.code = [1, 2, 3, 4, 5, 6, 7, 8, 9, 10, 11, 12, 13] := by
  refine ⟨fun m => ?_, by decide, by decide, by decide, by decide⟩
  cases m <;> decide

/-! ### The camera -/

/-- C2, as stated, fails: the default aspect ratio is the decimal literal `1.3333333` of the
declaration, which is not 4/3. -/
theorem Camera_default_aspect_ne_four_thirds :
    Camera.get_aspect (Camera.Camera_default CameraMath.sample) ≠ 4 / 3 := by
  simp only [Camera.get_aspect, Camera.Camera_default, Camera.Camera]
  norm_num

/-- C2, amended: a Camera constructed with no arguments has from = (3,4,5), at = (0,0,0),
up = (0,0,1), fov = 0.8, aspect = 1.3333333 (which is 1/30000000 below 4/3), clipNear = -2,
clipFar = 2 and orthographic = false. -/
theorem Camera_default_parameters (M : CameraMath ℚ) :
    Camera.get_from (Camera.Camera_default M) = ⟨3, 4, 5⟩ ∧
    Camera.get_at (Camera.Camera_default M) = ⟨0, 0, 0⟩ ∧
    Camera.get_up (Camera.Camera_default M) = ⟨0, 0, 1⟩ ∧
    Camera.get_fov (Camera.Camera_default M) = 0.8 ∧
    Camera.get_aspect (Camera.Camera_default M) = 1.3333333 ∧
    (4 / 3 : ℚ) - Camera.get_aspect (Camera.Camera_default M) = 1 / 30000000 ∧
    Camera.get_clipNear (Camera.Camera_default M) = -2 ∧
    Camera.get_clipFar (Camera.Camera_default M) = 2 ∧
    Camera.get_orthographic (Camera.Camera_default M) = false := by
  simp only [Camera.get_from, Camera.get_at, Camera.get_up, Camera.get_fov, Camera.get_aspect,
    Camera.get_clipNear, Camera.get_clipFar, Camera.get_orthographic, Camera.Camera_default,
    Camera.Camera]
  norm_num

/-- C9: `Program(preprogram)` gives every program a vertex and a fragment source, chosen by two
independent tests: the vertex source is `AmbDiff_vert` for AmbDiff and AmbDiff2Side and
`AmbDiffSolid_vert` for AmbDiffSolid and AmbDiff2SideSolid; the fragment source is
`AmbDiff2Side_frag` for AmbDiff2Side and AmbDiff2SideSolid and `AmbDiff_frag` for the other
two; the vertex, fragment and program ids start at 0; for any other preprogram value the
constructor throws `std::runtime_error`. -/
theorem Program_constructor_sources (E : Env) (hd : E.casesDistinct) (prog : Int) :
    (prog = E.preprogramAmbDiff →
      Program.builtWith (Program.Program E prog) AmbDiff_vert AmbDiff_frag) ∧
    (prog = E.preprogramAmbDiff2Side →
      Program.builtWith (Program.Program E prog) AmbDiff_vert AmbDiff2Side_frag) ∧
    (prog = E.preprogramAmbDiffSolid →
      Program.builtWith (Program.Program E prog) AmbDiffSolid_vert AmbDiff_frag) ∧
    (prog = E.preprogramAmbDiff2SideSolid →
      Program.builtWith (Program.Program E prog) AmbDiffSolid_vert AmbDiff2Side_frag) ∧
    (prog ≠ E.preprogramAmbDiff → prog ≠ E.preprogramAmbDiff2Side →
      prog ≠ E.preprogramAmbDiffSolid → prog ≠ E.preprogramAmbDiff2SideSolid →
      Program.Program E prog = .error (Exn.runtime_error
        ("Hale::Program::Program(prog)" ++ ": prog " ++ toString prog ++ " not recognized"))) := by
  obtain ⟨h12, h13, h14, h23, h24, h34⟩ := hd
  refine ⟨?_, ?_, ?_, ?_, ?_⟩
  · rintro rfl
    refine ⟨⟨[], [], 0, 0, 0, AmbDiff_vert, AmbDiff_frag⟩, ?_, rfl, rfl, rfl, rfl, rfl⟩
    simp [Program.Program, strdupe, h12, h13, h14, h23, h24, h34, h12.symm, h13.symm, h14.symm, h23.symm, h24.symm, h34.symm]
  · rintro rfl
    refine ⟨⟨[], [], 0, 0, 0, AmbDiff_vert, AmbDiff2Side_frag⟩, ?_, rfl, rfl, rfl, rfl, rfl⟩
    simp [Program.Program, strdupe, h12, h13, h14, h23, h24, h34, h12.symm, h13.symm, h14.symm, h23.symm, h24.symm, h34.symm]
  · rintro rfl
    refine ⟨⟨[], [], 0, 0, 0, AmbDiffSolid_vert, AmbDiff_frag⟩, ?_, rfl, rfl, rfl, rfl, rfl⟩
    simp [Program.Program, strdupe, h12, h13, h14, h23, h24, h34, h12.symm, h13.symm, h14.symm, h23.symm, h24.symm, h34.symm]
  · rintro rfl
    refine ⟨⟨[], [], 0, 0, 0, AmbDiffSolid_vert, AmbDiff2Side_frag⟩, ?_, rfl, rfl, rfl, rfl, rfl⟩
    simp [Program.Program, strdupe, h12, h13, h14, h23, h24, h34, h12.symm, h13.symm, h14.symm, h23.symm, h24.symm, h34.symm]
  · intro h1 h2 h3 h4
    simp only [Program.Program]
    rw [if_neg (by rintro (h | h) <;> simp_all), if_neg (by rintro (h | h) <;> simp_all)]

/-- C9, witness: the sample environment and `preprogramAmbDiff2Side`. -/
theorem Program_constructor_sources_witness :
    Env.sample.casesDistinct ∧
    Program.builtWith (Program.Program Env.sample 2) AmbDiff_vert AmbDiff2Side_frag :=
  ⟨by decide, (Program_constructor_sources Env.sample (by decide) 2).2.1 rfl⟩

/-- C6, the code at the failing input: with a GL that reports no error, answers `GL_FALSE` to
the compile-status query and 0 to the info-log-length query, `shaderNew` throws nothing and
returns 0, leaving the failed shader undeleted; `Program::compile` then stores 0 as both
shader ids and goes on to create the program and attach shader 0 twice, returning normally. -/
theorem shaderNew_failed_compile_without_log :
    Env.compileFailsNoLog.glGetShaderiv
        [GLCall.glCreateShader GL_VERTEX_SHADER, GLCall.glShaderSource 1 AmbDiff_vert,
         GLCall.glCompileShader 1] 1 GL_COMPILE_STATUS = GL_FALSE ∧
    shaderNew Env.compileFailsNoLog GL_VERTEX_SHADER AmbDiff_vert []
      = (.ok 0,
         [GLCall.glCreateShader GL_VERTEX_SHADER, GLCall.glShaderSource 1 AmbDiff_vert,
          GLCall.glCompileShader 1, GLCall.glGetShaderiv 1 GL_COMPILE_STATUS,
          GLCall.glGetShaderiv 1 GL_INFO_LOG_LENGTH]) ∧
    (Program.compile Env.compileFailsNoLog Program.sample []).1 = .ok () ∧
    (Program.compile Env.compileFailsNoLog Program.sample []).2.1._vertId = 0 ∧
    (Program.compile Env.compileFailsNoLog Program.sample []).2.1._fragId = 0 ∧
    ((Program.compile Env.compileFailsNoLog Program.sample []).2.2.drop 10)
      = [GLCall.glCreateProgram, GLCall.glAttachShader 11 0, GLCall.glAttachShader 11 0] := by
  refine ⟨rfl, rfl, rfl, rfl, rfl, rfl⟩

/-- C5: `Program::link()` reports every link failure by an exception.  Whenever the link status
after `glLinkProgram` is `GL_FALSE` it throws `std::runtime_error` (with the info log when one
exists, otherwise the fixed message), the object and so both uniform maps are left unchanged,
and the GL trace shows that the uniform introspection is never reached.  When the status is
not `GL_FALSE` the failure branch does nothing: `link()` is the uniform introspection run
right after the status query. -/
theorem link_failure_throws (E : Env) (p : Program) (gl : List GLCall) :
    (Program.linkStatus E p gl = GL_FALSE →
      (Program.link E p gl).1 = .error (Exn.runtime_error
        (if Program.linkLogSize E p gl ≠ 0 then
          "Hale::Program::use" ++ ": linking error: " ++ Program.linkLog E p gl
         else "compilation failed")) ∧
      (Program.link E p gl).2.1 = p ∧
      (Program.link E p gl).2.2 =
        gl ++ [GLCall.glLinkProgram p._progId, GLCall.glGetProgramiv p._progId GL_LINK_STATUS,
               GLCall.glGetProgramiv p._progId GL_INFO_LOG_LENGTH] ++
          (if Program.linkLogSize E p gl ≠ 0 then
            [GLCall.glGetProgramInfoLog p._progId (Program.linkLogSize E p gl)]
           else [])) ∧
    (Program.linkStatus E p gl ≠ GL_FALSE →
      Program.link E p gl = Program.linkIntrospect E p
        (gl ++ [GLCall.glLinkProgram p._progId, GLCall.glGetProgramiv p._progId GL_LINK_STATUS]))
    := by
  simp only [Program.linkStatus, Program.linkLogSize, Program.linkLog, Program.link]
  constructor
  · intro hst
    rw [if_pos hst.symm]
    split_ifs with h
    · simp
    · simp
  · intro hst
    rw [if_neg (fun h => hst h.symm)]
    simp

/-- C5, witness: a GL whose link fails with the info log `bad link`, and a GL whose link
succeeds. -/
theorem link_failure_throws_witness :
    Program.linkStatus Env.linkFails Program.sample [] = GL_FALSE ∧
    (Program.link Env.linkFails Program.sample []).1
      = .error (Exn.runtime_error "Hale::Program::use: linking error: bad link") ∧
    (Program.link Env.linkFails Program.sample []).2.1 = Program.sample ∧
    Program.linkStatus Env.sample Program.sample [] ≠ GL_FALSE ∧
    (Program.link Env.sample Program.sample []).1 = .ok () :=
  ⟨rfl,
   ((link_failure_throws Env.linkFails Program.sample []).1 rfl).1,
   ((link_failure_throws Env.linkFails Program.sample []).1 rfl).2.1,
   by decide,
   by rw [(link_failure_throws Env.sample Program.sample []).2 (by decide)]; rfl⟩

/-! #### Maps and the uniform introspection -/

theorem StrMap.find_set_self {α : Type} (m : StrMap α) (k : String) (v : α) :
    (m.set k v).find k = some v := by
  simp [StrMap.find, StrMap.set, List.lookup]

theorem StrMap.find_filter_ne {α : Type} (m : StrMap α) (k k' : String) (h : k' ≠ k) :
    List.lookup k' (m.filter (fun e => e.1 != k)) = List.lookup k' m := by
  induction m with
  | nil => rfl
  | cons e m ih =>
    obtain ⟨a, b⟩ := e
    by_cases hak : a = k
    · subst hak
      have hne : (k' == a) = false := by simpa using h
      simp [List.filter, List.lookup, hne, ih]
    · have hf : (a != k) = true := by simpa using hak
      simp only [List.filter, hf, List.lookup]
      cases hk : (k' == a) <;> simp [ih]

theorem StrMap.find_set_ne {α : Type} (m : StrMap α) (k k' : String) (v : α) (h : k' ≠ k) :
    (m.set k v).find k' = m.find k' := by
  have hne : (k' == k) = false := by simpa using h
  simp only [StrMap.find, StrMap.set, List.lookup, hne]
  exact StrMap.find_filter_ne m k k' h

theorem Program.linkUniforms_typedHaveLocation (E : Env) :
    ∀ (n : Nat) (uniI : Int) (p : Hale.Program) (gl : List GLCall),
      p.typedHaveLocation → (Program.linkUniforms E n uniI p gl).1 = .ok () →
      (Program.linkUniforms E n uniI p gl).2.1.typedHaveLocation := by
  intro n
  induction n with
  | zero => intro uniI p gl hp _; exact hp
  | succ n ih =>
    intro uniI p gl hp hok
    simp only [Program.linkUniforms] at hok ⊢
    split at hok
    · simp at hok
    · split at hok
      · simp at hok
      · by_cases h3 : -1 = E.glGetUniformLocation
            (gl ++ [GLCall.glGetActiveUniform p._progId uniI]) p._progId
            (E.glGetActiveUniform gl p._progId uniI).1
        · rw [if_pos h3] at hok
          simp at hok
        · rw [if_neg h3] at hok ⊢
          apply ih _ _ _ _ hok
          intro name hname
          by_cases hn : name = (E.glGetActiveUniform gl p._progId uniI).1
          · subst hn
            simp [StrMap.find_set_self]
          · simp only [StrMap.find_set_ne _ _ _ _ hn] at hname ⊢
            exact hp name hname

theorem Program.linkIntrospect_typedHaveLocation (E : Env) (p : Hale.Program)
    (gl : List GLCall) (hok : (Program.linkIntrospect E p gl).1 = .ok ()) :
    (Program.linkIntrospect E p gl).2.1.typedHaveLocation := by
  simp only [Program.linkIntrospect] at hok ⊢
  split at hok
  · simp at hok
  · apply Program.linkUniforms_typedHaveLocation E _ _ _ _ _ hok
    intro name hname
    simp [StrMap.find] at hname

theorem Program.link_typedHaveLocation (E : Env) (p : Hale.Program) (gl : List GLCall)
    (hok : (Program.link E p gl).1 = .ok ()) : (Program.link E p gl).2.1.typedHaveLocation := by
  simp only [Program.link] at hok ⊢
  by_cases h1 : GL_FALSE
      = E.glGetProgramiv (gl ++ [GLCall.glLinkProgram p._progId]) p._progId GL_LINK_STATUS
  · rw [if_pos h1] at hok
    split_ifs at hok
  · rw [if_neg h1] at hok ⊢
    exact Program.linkIntrospect_typedHaveLocation E p _ hok

theorem Program.uniformWith_contract (E : Env) (glType : Int) (got : String)
    (upload : Int → GLCall) (cmd : String) (p : Hale.Program) (name : String) (gl : List GLCall) :
    Program.uniformContract E p name gl glType upload cmd
      (Program.uniformWith E glType got upload cmd p name gl) := by
  refine ⟨?_, ?_, ?_, ?_⟩
  · intro h
    simp [Program.uniformWith, h]
  · intro ii h hne
    have hne' : glType ≠ ii.enumVal := fun e => hne e.symm
    simp [Program.uniformWith, h, hne']
  · intro ii loc h heq hloc
    subst heq
    simp only [Program.uniformWith, h, hloc, ne_eq, not_true_eq_false, if_false]
    constructor
    · split <;> rfl
    · intro hchk
      rw [hchk]
  · intro ii h heq hloc
    subst heq
    simp [Program.uniformWith, h, hloc]

/-- C7, as stated, fails.  With a GL that reports no error but has no location for the active
uniform `phongKa`, `link()` throws after it has recorded the type of `phongKa` and before it
records a location.  On the object left behind, `phongKa` is a key of `uniformType` with the
type `GL_FLOAT`, yet `uniform("phongKa", v)` with a float `v` uploads nothing and throws
`std::out_of_range`, which is not a `std::runtime_error`. -/
theorem uniform_float_typed_without_location :
    StrMap.find (Program.link Env.locationMissing Program.sample []).2.1.uniformType "phongKa"
      = some ⟨GL_FLOAT, "GL_FLOAT", "float"⟩ ∧
    Program.uniform_float Env.locationMissing
        (Program.link Env.locationMissing Program.sample []).2.1 "phongKa" ⟨7⟩ []
      = (.error Exn.out_of_range, []) ∧
    Exn.isRuntimeError Exn.out_of_range = false := by
  refine ⟨rfl, rfl, rfl⟩

/-- C7, amended: uniform upload is type checked.  For each overload
`Program::uniform(name, v)` with `v` a float, vec3, vec4 or mat4, the call throws
`std::runtime_error` without issuing any GL command if `name` is not a key of `uniformType`,
or if the type recorded for `name` is not `GL_FLOAT`, `GL_FLOAT_VEC3`, `GL_FLOAT_VEC4` or
`GL_FLOAT_MAT4` respectively.  Otherwise, when a location is recorded for `name`, it uploads
`v` to that location and (GL itself reporting no error) throws nothing; when no location is
recorded for `name`, it throws `std::out_of_range` without issuing any GL command.  After a
`link()` that returned normally every name with a recorded type has a recorded location. -/
theorem uniform_type_checked (E : Env) (p : Hale.Program) (name : String) (gl : List GLCall) :
    (∀ vv : GLfloat, Program.uniformContract E p name gl GL_FLOAT
        (fun loc => GLCall.glUniform1f loc vv) "glUniform1f"
        (Program.uniform_float E p name vv gl)) ∧
    (∀ vv : vec3 GLfloat, Program.uniformContract E p name gl GL_FLOAT_VEC3
        (fun loc => GLCall.glUniform3fv loc 1 vv) "glUniform3fv"
        (Program.uniform_vec3 E p name vv gl)) ∧
    (∀ vv : vec4 GLfloat, Program.uniformContract E p name gl GL_FLOAT_VEC4
        (fun loc => GLCall.glUniform4fv loc 1 vv) "glUniform4fv"
        (Program.uniform_vec4 E p name vv gl)) ∧
    (∀ vv : mat4 GLfloat, Program.uniformContract E p name gl GL_FLOAT_MAT4
        (fun loc => GLCall.glUniformMatrix4fv loc 1 0 vv) "glUniformMatrix4fv"
        (Program.uniform_mat4 E p name vv gl)) ∧
    (∀ gl0, (Program.link E p gl0).1 = .ok () →
        (Program.link E p gl0).2.1.typedHaveLocation) :=
  ⟨fun _ => Program.uniformWith_contract E _ _ _ _ p name gl,
   fun _ => Program.uniformWith_contract E _ _ _ _ p name gl,
   fun _ => Program.uniformWith_contract E _ _ _ _ p name gl,
   fun _ => Program.uniformWith_contract E _ _ _ _ p name gl,
   fun gl0 hok => Program.link_typedHaveLocation E p gl0 hok⟩

/-- C7, witness: on the sample program after a successful `link()`, the float `7` is uploaded
to location 0 of `phongKa` and nothing is thrown; a float for the vec3 `lightDir` and a float
for an unknown name are refused without a GL command. -/
theorem uniform_type_checked_witness :
    StrMap.find (Program.link Env.sample Program.sample []).2.1.uniformType "phongKa"
      = some ⟨GL_FLOAT, "GL_FLOAT", "float"⟩ ∧
    StrMap.find (Program.link Env.sample Program.sample []).2.1.uniformLocation "phongKa"
      = some 0 ∧
    (Program.uniform_float Env.sample (Program.link Env.sample Program.sample []).2.1
        "phongKa" ⟨7⟩ []).2 = [GLCall.glUniform1f 0 ⟨7⟩] ∧
    (Program.uniform_float Env.sample (Program.link Env.sample Program.sample []).2.1
        "phongKa" ⟨7⟩ []).1 = .ok () ∧
    (Program.uniform_float Env.sample (Program.link Env.sample Program.sample []).2.1
        "lightDir" ⟨7⟩ []).2 = [] ∧
    (Program.uniform_float Env.sample (Program.link Env.sample Program.sample []).2.1
        "nothing" ⟨7⟩ []).2 = [] :=
  ⟨rfl, rfl,
   ((uniform_type_checked Env.sample (Program.link Env.sample Program.sample []).2.1
      "phongKa" []).1 ⟨7⟩).2.2.1 ⟨GL_FLOAT, "GL_FLOAT", "float"⟩ 0 rfl rfl rfl |>.1,
   ((uniform_type_checked Env.sample (Program.link Env.sample Program.sample []).2.1
      "phongKa" []).1 ⟨7⟩).2.2.1 ⟨GL_FLOAT, "GL_FLOAT", "float"⟩ 0 rfl rfl rfl |>.2 rfl,
   ((uniform_type_checked Env.sample (Program.link Env.sample Program.sample []).2.1
      "lightDir" []).1 ⟨7⟩).2.1 ⟨GL_FLOAT_VEC3, "GL_FLOAT_VEC3", "vec3"⟩ rfl (by decide) |>.2,
   ((uniform_type_checked Env.sample (Program.link Env.sample Program.sample []).2.1
      "nothing" []).1 ⟨7⟩).1 rfl |>.2⟩

theorem Program.use_of_current (E : Env) (this : Nat) (p : Hale.Program) (w : World)
    (hc : w._programCurrent = this) : Program.use E this p w = (.ok (), w) := by
  simp [Program.use, hc]

/-- C10: `Program::use()` maintains the single global current program.  When the program is
already the current one it issues no GL command and changes no state.  Otherwise it issues
`glUseProgram` on its id (and nothing else) and, the error check passing, sets the global
current-program pointer to itself and returns normally.  So after every normal return of
`p.use()` the current program is `p`, and calling `p.use()` again at once is a no-op. -/
theorem use_maintains_current (E : Env) (this : Nat) (p : Program) (w : World) :
    (w._programCurrent = this → Program.use E this p w = (.ok (), w)) ∧
    (w._programCurrent ≠ this →
      (Program.use E this p w).2.gl = w.gl ++ [GLCall.glUseProgram p._progId] ∧
      (Program.use E this p w).2.heap = w.heap ∧
      (Program.use E this p w).2._program = w._program ∧
      (E.glErrorCheck (w.gl ++ [GLCall.glUseProgram p._progId]) "Hale::Program::use"
          ("glUseProgram(" ++ toString p._progId ++ ")") = none →
        (Program.use E this p w).1 = .ok () ∧
        (Program.use E this p w).2._programCurrent = this)) ∧
    ((Program.use E this p w).1 = .ok () →
      (Program.use E this p w).2._programCurrent = this ∧
      Program.use E this p (Program.use E this p w).2 = (.ok (), (Program.use E this p w).2)) := by
  have hcur : (Program.use E this p w).1 = .ok () →
      (Program.use E this p w).2._programCurrent = this := by
    intro hok
    simp only [Program.use] at hok ⊢
    by_cases hc : w._programCurrent = this
    · rw [if_pos hc]; exact hc
    · rw [if_neg hc] at hok ⊢
      split at hok
      · simp at hok
      · rfl
  refine ⟨?_, ?_, ?_⟩
  · exact Program.use_of_current E this p w
  · intro hc
    simp only [Program.use]
    rw [if_neg hc]
    refine ⟨?_, ?_, ?_, ?_⟩
    · split <;> rfl
    · split <;> rfl
    · split <;> rfl
    · intro hchk
      rw [hchk]
      exact ⟨rfl, rfl⟩
  · intro hok
    exact ⟨hcur hok, Program.use_of_current E this p _ (hcur hok)⟩

/-- C10, witness: in the empty world no program is current; after `use()` on the object at
address 1 that object is current, `glUseProgram 3` is the one GL command issued, and a second
`use()` changes nothing. -/
theorem use_maintains_current_witness :
    World.empty._programCurrent ≠ 1 ∧
    (Program.use Env.sample 1 Program.sample World.empty).1 = .ok () ∧
    (Program.use Env.sample 1 Program.sample World.empty).2.gl = [GLCall.glUseProgram 3] ∧
    (Program.use Env.sample 1 Program.sample World.empty).2._programCurrent = 1 ∧
    Program.use Env.sample 1 Program.sample
        (Program.use Env.sample 1 Program.sample World.empty).2
      = (.ok (), (Program.use Env.sample 1 Program.sample World.empty).2) :=
  ⟨by decide,
   (((use_maintains_current Env.sample 1 Program.sample World.empty).2.1 (by decide)).2.2.2
      rfl).1,
   ((use_maintains_current Env.sample 1 Program.sample World.empty).2.1 (by decide)).1,
   ((use_maintains_current Env.sample 1 Program.sample World.empty).2.2 rfl).1,
   ((use_maintains_current Env.sample 1 Program.sample World.empty).2.2 rfl).2⟩

theorem ProgramLib_cached (E : Env) (pp : Int) (w : World)
    (h1 : E.preprogramUnknown < pp) (h2 : pp < E.preprogramLast) (h3 : w._program pp ≠ 0) :
    ProgramLib E pp w = (.ok (w._program pp), w) := by
  simp [ProgramLib, h1, h2, h3]

theorem ProgramLib_ok (E : Env) (pp : Int) (w : World) (prog : Nat)
    (hok : (ProgramLib E pp w).1 = .ok prog) :
    E.preprogramUnknown < pp ∧ pp < E.preprogramLast ∧
    (ProgramLib E pp w).2._program pp = prog ∧ prog ≠ 0 := by
  simp only [ProgramLib] at hok ⊢
  by_cases hr : E.preprogramUnknown < pp ∧ pp < E.preprogramLast
  · rw [if_neg (not_not.mpr hr)] at hok ⊢
    refine ⟨hr.1, hr.2, ?_⟩
    by_cases hc : w._program pp ≠ 0
    · rw [if_pos hc] at hok ⊢
      simp only [Except.ok.injEq] at hok
      exact ⟨hok, hok ▸ hc⟩
    · rw [if_neg hc] at hok ⊢
      split at hok
      · simp at hok
      · split at hok
        · simp at hok
        · split at hok
          · simp at hok
          · split at hok
            · simp at hok
            · simp only [Except.ok.injEq] at hok
              subst hok
              simp
  · rw [if_pos hr] at hok
    simp at hok

/-- C8: `ProgramLib` re-uses compiled programs.  For every `pp` strictly between
`preprogramUnknown` and `preprogramLast` whose cache slot `_program[pp]` is already set,
`ProgramLib(pp)` returns exactly that stored program and leaves the whole world unchanged: no
object is constructed, no GL command issued (nothing compiled, bound or linked), the cache is
as before.  Hence after a successful call `ProgramLib(pp)` the next call returns the same
program and changes nothing. -/
theorem ProgramLib_reuses_compiled (E : Env) (pp : Int) (w : World) :
    (E.preprogramUnknown < pp → pp < E.preprogramLast → w._program pp ≠ 0 →
      ProgramLib E pp w = (.ok (w._program pp), w)) ∧
    (∀ prog, (ProgramLib E pp w).1 = .ok prog →
      ProgramLib E pp (ProgramLib E pp w).2 = (.ok prog, (ProgramLib E pp w).2)) := by
  refine ⟨ProgramLib_cached E pp w, fun prog hok => ?_⟩
  obtain ⟨h1, h2, h3, h4⟩ := ProgramLib_ok E pp w prog hok
  have := ProgramLib_cached E pp (ProgramLib E pp w).2 h1 h2 (by rw [h3]; exact h4)
  rw [this, h3]

/-- C8, witness: in the empty world the first `ProgramLib(preprogramAmbDiff)` builds the
program at address 1 with 21 GL commands; the second call returns address 1 again and leaves
the world, its 21 commands included, as it is. -/
theorem ProgramLib_reuses_compiled_witness :
    (ProgramLib Env.sample 1 World.empty).1 = .ok 1 ∧
    (ProgramLib Env.sample 1 World.empty).2.gl.length = 21 ∧
    (ProgramLib Env.sample 1 World.empty).2._program 1 ≠ 0 ∧
    ProgramLib Env.sample 1 (ProgramLib Env.sample 1 World.empty).2
      = (.ok 1, (ProgramLib Env.sample 1 World.empty).2) :=
  ⟨rfl, rfl, by decide,
   (ProgramLib_reuses_compiled Env.sample 1 World.empty).2 1 rfl⟩

end Hale
